import Mathlib

/-!
Shallow embedding of the Manta-Control-System Arduino controller
(`src/arduino_code_debug.cpp`).

The controller keeps a fixed table of six actuators (four PWM pumps, two
binary valves), executes batched device commands received over HTTP,
schedules timed auto-revert deadlines, and ships log events to a remote
collector through a rate-limited, single-slot-retry WiFi logger.

Hardware pin writes are modelled as an explicit trace of `PinWrite` events;
log emission requests are modelled as a trace of `LogCall` values (the
logger itself, `WiFiLogger`, is modelled separately as a state machine).
Time (`millis()`) is modelled as a `Nat` monotonic clock.  C++ `long`
division in Arduino's `map` truncates toward zero, so it is embedded with
`Int.tdiv`.
-/

namespace Manta

/-- `deviceNames[]` from the source: the six actuator identifiers. -/
def deviceNames : List String :=
  ["inflate_pump_1", "inflate_pump_2", "exhaust_pump_1", "exhaust_pump_2",
   "valve_1", "valve_2"]

/-- `devicePins[]` from the source. -/
def devicePins : List Nat := [5, 6, 10, 11, 2, 4]

/-- `isPWM[]` from the source: which devices have Proportional (PWM) capability. -/
def isPWM : List Bool := [true, true, true, true, false, false]

/-- `struct DeviceState`: current value, active flag, auto-revert deadline.
`endTime = 0` encodes "no deadline" (the code clears with `endTime = 0`). -/
structure DeviceState where
  currentValue : Int
  isActive : Bool
  endTime : Nat
deriving Repr, DecidableEq

instance : Inhabited DeviceState := ⟨⟨0, false, 0⟩⟩

/-- A physical output write: `analogWrite pin v` or `digitalWrite pin high`. -/
inductive PinWrite where
  | analog (pin : Nat) (v : Int)
  | digital (pin : Nat) (high : Bool)
deriving Repr, DecidableEq

/-- A request to the logger: `wifiLogger.log(level, message, category)`. -/
structure LogCall where
  level : String
  message : String
  category : String
deriving Repr, DecidableEq

/-- Initial device states after `initializeDevices()`: all zeroed. -/
def initDevices : List DeviceState := List.replicate 6 default

/-- Replace the element at index `i` (identity when out of range), the
functional counterpart of `devices[i].field = x`. -/
def modifyIdx {α : Type} : List α → Nat → (α → α) → List α
  | [], _, _ => []
  | a :: as, 0, f => f a :: as
  | a :: as, n + 1, f => a :: modifyIdx as n f

/-- Arduino's `map(x, in_min, in_max, out_min, out_max)`:
`(x - in_min) * (out_max - out_min) / (in_max - in_min) + out_min` over C++
`long`, whose division truncates toward zero (`Int.tdiv`). -/
def arduinoMap (x inMin inMax outMin outMax : Int) : Int :=
  ((x - inMin) * (outMax - outMin)).tdiv (inMax - inMin) + outMin

/-- The linear search loop over `deviceNames` in `executeDeviceCommand`:
index of the first name equal to `deviceId`. -/
def findNameIdx (deviceId : String) : List String → Option Nat
  | [] => none
  | n :: ns =>
    if n == deviceId then some 0 else (findNameIdx deviceId ns).map (· + 1)

/-- `deviceIndex` lookup in `executeDeviceCommand`. -/
def findDeviceIndex (deviceId : String) : Option Nat :=
  findNameIdx deviceId deviceNames

/-- Outcome of one `executeDeviceCommand` call: success flag, updated device
table, pin writes performed, and log calls issued. -/
structure ExecResult where
  ok : Bool
  devices : List DeviceState
  writes : List PinWrite
  logs : List LogCall
deriving Repr, DecidableEq

/-- The common tail of a successful command (source lines 590-603):
`isActive = (value > 0)`; `endTime = millis() + duration` when
`duration > 0 && value > 0`, else `endTime = 0`; returns `true`. -/
def finishCommand (i : Nat) (value duration : Int) (now : Nat)
    (ds : List DeviceState) (ws : List PinWrite) (ls : List LogCall) :
    ExecResult :=
  let ds := modifyIdx ds i fun d => { d with isActive := decide (0 < value) }
  let ds := modifyIdx ds i fun d =>
    { d with endTime := if 0 < duration ∧ 0 < value then now + duration.toNat else 0 }
  ⟨true, ds, ws, ls⟩

/-- `executeDeviceCommand(deviceId, action, value, duration)` from the source.
Unknown device: error log, `false`.  `power`/`set_power`: only on PWM devices,
`analogWrite(pin, map(value,0,100,0,255))`, store the mapped value.
`state`/`set_state`: on ANY device, `digitalWrite(pin, value > 0)`, store 0/1.
Unknown action: `false`. -/
def executeDeviceCommand (deviceId action : String) (value duration : Int)
    (now : Nat) (devices : List DeviceState) : ExecResult :=
  match findDeviceIndex deviceId with
  | none => ⟨false, devices, [], [⟨"error", "未知设备: " ++ deviceId, "device_control"⟩]⟩
  | some i =>
    if action == "power" || action == "set_power" then
      if isPWM.getD i false then
        let pwmValue := arduinoMap value 0 100 0 255
        let ds := modifyIdx devices i fun d => { d with currentValue := pwmValue }
        finishCommand i value duration now ds
          [PinWrite.analog (devicePins.getD i 0) pwmValue]
          [⟨"info", "设备 " ++ deviceId ++ " PWM设置为 " ++ toString value ++
              "% (" ++ toString pwmValue ++ "/255)", "device_control"⟩]
      else ⟨false, devices, [], []⟩
    else if action == "state" || action == "set_state" then
      let st := decide (0 < value)
      let ds := modifyIdx devices i fun d =>
        { d with currentValue := if st then 1 else 0 }
      finishCommand i value duration now ds
        [PinWrite.digital (devicePins.getD i 0) st]
        [⟨"info", "设备 " ++ deviceId ++ " 状态设置为 " ++
            (if st then "开启" else "关闭"), "device_control"⟩]
    else ⟨false, devices, [], []⟩

/-- The expiry test of `checkTimedTasks`: `endTime > 0 && now >= endTime`. -/
def deviceExpired (now : Nat) (d : DeviceState) : Bool :=
  decide (0 < d.endTime) && decide (d.endTime ≤ now)

/-- The per-device effect of one pass of `checkTimedTasks`: an expired device
is reverted (output 0, inactive, deadline cleared), others are untouched. -/
def tickOne (now : Nat) (d : DeviceState) : DeviceState :=
  if deviceExpired now d then ⟨0, false, 0⟩ else d

/-- State of a scheduler pass: devices, pin writes so far, log calls so far. -/
structure TickResult where
  devices : List DeviceState
  writes : List PinWrite
  logs : List LogCall
deriving Repr, DecidableEq

/-- Body of the `for (int i = 0; i < 6; i++)` loop of `checkTimedTasks`. -/
def checkStep (now : Nat) (acc : TickResult) (i : Nat) : TickResult :=
  let d := acc.devices.getD i default
  if deviceExpired now d then
    ⟨modifyIdx acc.devices i fun _ => ⟨0, false, 0⟩,
     acc.writes ++ [if isPWM.getD i false then PinWrite.analog (devicePins.getD i 0) 0
                    else PinWrite.digital (devicePins.getD i 0) false],
     acc.logs ++ [⟨"info", "设备 " ++ deviceNames.getD i "" ++ " 定时关闭", "timer_task"⟩]⟩
  else acc

/-- `checkTimedTasks()` from the source: scan all six devices in registration
order and revert every expired one. -/
def checkTimedTasks (now : Nat) (devices : List DeviceState) : TickResult :=
  (List.range 6).foldl (checkStep now) ⟨devices, [], []⟩

/-! ### WiFi logger (`class WiFiLogger`)

Network connectivity of the short-lived outbound connection is an input of
the environment, modelled as a `connectOk : Bool` argument to each
operation. -/

/-- Mutable fields of `WiFiLogger`: the buffered payload `lastLog`, the
pending flag, and the rate-limiter timestamp `lastSendTime`. -/
structure LoggerState where
  lastLog : String
  hasPendingLog : Bool
  lastSendTime : Nat
deriving Repr, DecidableEq

/-- Logger state at construction: empty buffer, nothing pending, timer 0. -/
def initLogger : LoggerState := ⟨"", false, 0⟩

/-- `MIN_SEND_INTERVAL` from the source. -/
def MIN_SEND_INTERVAL : Nat := 1000

/-- The serialized payload built by `sendLogImmediately` (message sanitation
by `cleanJsonString` is kept abstract in the payload text; only the shape of
the string matters for the claims). -/
def buildJsonLog (now : Nat) (level message category : String) : String :=
  "\x7b\"timestamp\":" ++ toString now ++ ",\"level\":\"" ++ level ++
    "\",\"message\":\"" ++ message ++ "\",\"category\":\"" ++ category ++ "\"\x7d"

/-- `sendLogImmediately`: attempt one outbound connection; on failure store
the payload as the single pending entry (overwriting any previous one). -/
def sendLogImmediately (now : Nat) (connectOk : Bool)
    (level message category : String) (st : LoggerState) : LoggerState :=
  let jsonLog := buildJsonLog now level message category
  if connectOk then st
  else { st with lastLog := jsonLog, hasPendingLog := true }

/-- `WiFiLogger::log`: `error`/`warn` transmit immediately and
unconditionally; every other level is rate limited by
`now - lastSendTime >= MIN_SEND_INTERVAL`, and `lastSendTime` is updated
exactly when that path attempts a transmission.  The returned `Bool` records
whether a transmission attempt was made. -/
def loggerLog (now : Nat) (connectOk : Bool) (level message category : String)
    (st : LoggerState) : LoggerState × Bool :=
  if level == "error" || level == "warn" then
    (sendLogImmediately now connectOk level message category st, true)
  else
    if MIN_SEND_INTERVAL ≤ now - st.lastSendTime then
      ({ sendLogImmediately now connectOk level message category st with
          lastSendTime := now }, true)
    else (st, false)

/-- `WiFiLogger::retryLastLog`: when a pending entry with a non-empty payload
exists, attempt one transmission; clear it on success, keep it on failure.
The returned `Bool` records whether a transmission attempt was made. -/
def retryLastLog (connectOk : Bool) (st : LoggerState) : LoggerState × Bool :=
  if st.hasPendingLog ∧ 0 < st.lastLog.length then
    if connectOk then ({ st with hasPendingLog := false, lastLog := "" }, true)
    else (st, true)
  else (st, false)

/-! ### Batch command handling (`handleBatchCommands`) -/

/-- One element of the `cmds` array of a batch: `{dev, act, val, dur}`. -/
structure Cmd where
  dev : String
  act : String
  val : Int
  dur : Int
deriving Repr, DecidableEq

/-- A parsed command batch `{id, ts, cmds}`. -/
structure Batch where
  id : String
  ts : Nat
  cmds : List Cmd
deriving Repr, DecidableEq

/-- `mapDeviceId`: backend id → Arduino id; unknown ids pass through. -/
def mapDeviceId (backendId : String) : String :=
  if backendId == "pump1" then "inflate_pump_1"
  else if backendId == "pump2" then "inflate_pump_2"
  else if backendId == "pump3" then "exhaust_pump_1"
  else if backendId == "pump4" then "exhaust_pump_2"
  else if backendId == "valve1" then "valve_1"
  else if backendId == "valve2" then "valve_2"
  else backendId

/-- `mapActionType`: backend action → Arduino action; unknown pass through. -/
def mapActionType (backendAction : String) : String :=
  if backendAction == "setPwr" then "power"
  else if backendAction == "setSt" then "state"
  else backendAction

/-- Accumulator of the command loop in `handleBatchCommands`. -/
structure BatchAcc where
  devices : List DeviceState
  executedCount : Nat
  writes : List PinWrite
  logs : List LogCall
deriving Repr, DecidableEq

/-- One iteration of the `for (JsonObject cmd : commands)` loop: translate
ids, execute, bump `executedCount` on success. -/
def applyCmd (now : Nat) (acc : BatchAcc) (c : Cmd) : BatchAcc :=
  let r := executeDeviceCommand (mapDeviceId c.dev) (mapActionType c.act)
      c.val c.dur now acc.devices
  ⟨r.devices, acc.executedCount + (if r.ok then 1 else 0),
   acc.writes ++ r.writes, acc.logs ++ r.logs⟩

/-- The whole command loop, in array order. -/
def processCommands (now : Nat) (devices : List DeviceState)
    (cmds : List Cmd) : BatchAcc :=
  cmds.foldl (applyCmd now) ⟨devices, 0, [], []⟩

/-- An HTTP response: status code and body text. -/
structure HttpResponse where
  status : Nat
  body : String
deriving Repr, DecidableEq

/-- The body written by `sendError(client, code, message)`. -/
def errorBody (message : String) : String :=
  "\x7b\"error\": \"" ++ message ++ "\"\x7d"

/-- The 200 body written at the end of `handleBatchCommands`. -/
def okBody (executed : Nat) : String :=
  "\x7b\"success\": true, \"executed\": " ++ toString executed ++ "\x7d"

/-- The opening-brace character (`'\x7b'`). -/
def lbrace : Char := Char.ofNat 123

/-- `request.indexOf("{")`: position of the first opening brace. -/
def firstBraceIdx (s : String) : Option Nat :=
  s.toList.findIdx? (· == lbrace)

/-- Result of `handleBatchCommands`: device table, pin writes, log calls and
the HTTP response sent. -/
structure BatchResult where
  devices : List DeviceState
  writes : List PinWrite
  logs : List LogCall
  response : HttpResponse
deriving Repr, DecidableEq

/-- `handleBatchCommands(client, request)`.  JSON deserialization
(`deserializeJson`, the external ArduinoJson library) is abstracted as the
`parse` argument returning either an error message (`error.c_str()`) or a
parsed `Batch`.  No opening brace: HTTP 400 `No JSON found`, no log call.
Parse error: HTTP 400, one `error` log call, no command applied.  Otherwise:
apply every command in order and answer 200 with the executed count. -/
def handleBatchCommands (request : String)
    (parse : String → Except String Batch) (now : Nat)
    (devices : List DeviceState) : BatchResult :=
  match firstBraceIdx request with
  | none => ⟨devices, [], [], ⟨400, errorBody "No JSON found"⟩⟩
  | some jsonStart =>
    let jsonData := (request.toList.drop jsonStart).asString
    match parse jsonData with
    | Except.error e =>
        ⟨devices, [], [⟨"error", "JSON解析失败: " ++ e, "json_parse"⟩],
         ⟨400, errorBody ("JSON Parse Error: " ++ e)⟩⟩
    | Except.ok doc =>
        let acc := processCommands now devices doc.cmds
        ⟨acc.devices, acc.writes, acc.logs, ⟨200, okBody acc.executedCount⟩⟩

/-- Success of a command depends only on the command itself (translated
device known; `power` only on PWM devices; `state` on any device). -/
def cmdOk (c : Cmd) : Bool :=
  match findDeviceIndex (mapDeviceId c.dev) with
  | none => false
  | some i =>
    if mapActionType c.act == "power" || mapActionType c.act == "set_power" then
      isPWM.getD i false
    else mapActionType c.act == "state" || mapActionType c.act == "set_state"

/-! ### Helper lemmas -/

theorem modifyIdx_length {α : Type} (l : List α) (i : Nat) (f : α → α) :
    (modifyIdx l i f).length = l.length := by
  induction l generalizing i with
  | nil => rfl
  | cons a as ih =>
    cases i with
    | zero => rfl
    | succ n => simpa [modifyIdx] using ih n

theorem modifyIdx_getD_self {α : Type} (l : List α) (i : Nat) (f : α → α)
    (d : α) (h : i < l.length) :
    (modifyIdx l i f).getD i d = f (l.getD i d) := by
  induction l generalizing i with
  | nil => simp at h
  | cons a as ih =>
    cases i with
    | zero => rfl
    | succ n =>
      simp only [modifyIdx, List.getD_cons_succ]
      exact ih n (by simpa using h)

theorem modifyIdx_getD_ne {α : Type} (l : List α) (i j : Nat) (f : α → α)
    (d : α) (h : j ≠ i) :
    (modifyIdx l i f).getD j d = l.getD j d := by
  induction l generalizing i j with
  | nil => rfl
  | cons a as ih =>
    cases i with
    | zero =>
      cases j with
      | zero => exact absurd rfl h
      | succ m => rfl
    | succ n =>
      cases j with
      | zero => rfl
      | succ m =>
        simp only [modifyIdx, List.getD_cons_succ]
        exact ih n m (fun hc => h (by rw [hc]))

theorem findNameIdx_lt (deviceId : String) (ns : List String) (i : Nat)
    (h : findNameIdx deviceId ns = some i) : i < ns.length := by
  induction ns generalizing i with
  | nil => simp [findNameIdx] at h
  | cons n ns ih =>
    simp only [findNameIdx] at h
    split at h
    · cases h
      simp
    · cases hr : findNameIdx deviceId ns with
      | none => rw [hr] at h; simp at h
      | some k =>
        rw [hr] at h
        simp only [Option.map, Option.some.injEq] at h
        have := ih k hr
        simp only [List.length_cons]
        omega

theorem findDeviceIndex_lt (deviceId : String) (i : Nat)
    (h : findDeviceIndex deviceId = some i) : i < 6 :=
  findNameIdx_lt deviceId deviceNames i h

/-- Success of `executeDeviceCommand` does not depend on the device table or
the clock: it is decided by the command alone. -/
theorem executeDeviceCommand_ok_eq (now : Nat) (ds : List DeviceState)
    (c : Cmd) :
    (executeDeviceCommand (mapDeviceId c.dev) (mapActionType c.act)
      c.val c.dur now ds).ok = cmdOk c := by
  unfold executeDeviceCommand cmdOk
  cases h : findDeviceIndex (mapDeviceId c.dev) with
  | none => rfl
  | some i =>
    dsimp only
    by_cases hp : (mapActionType c.act == "power"
        || mapActionType c.act == "set_power") = true
    · rw [if_pos hp, if_pos hp]
      cases hw : isPWM.getD i false with
      | true => simp [finishCommand]
      | false => rfl
    · rw [if_neg hp, if_neg hp]
      by_cases hs : (mapActionType c.act == "state"
          || mapActionType c.act == "set_state") = true
      · rw [if_pos hs, hs]; simp [finishCommand]
      · rw [if_neg hs]
        cases hb : (mapActionType c.act == "state"
            || mapActionType c.act == "set_state") with
        | true => exact absurd hb hs
        | false => rfl

/-- A command whose `cmdOk` is false leaves the device table untouched and
performs no pin write. -/
theorem executeDeviceCommand_failed_frame (now : Nat) (ds : List DeviceState)
    (c : Cmd) (h : cmdOk c = false) :
    (executeDeviceCommand (mapDeviceId c.dev) (mapActionType c.act)
        c.val c.dur now ds).devices = ds ∧
    (executeDeviceCommand (mapDeviceId c.dev) (mapActionType c.act)
        c.val c.dur now ds).writes = [] := by
  have hok := executeDeviceCommand_ok_eq now ds c
  rw [h] at hok
  unfold executeDeviceCommand at hok ⊢
  cases hf : findDeviceIndex (mapDeviceId c.dev) with
  | none => exact ⟨rfl, rfl⟩
  | some i =>
    rw [hf] at hok
    dsimp only at hok ⊢
    by_cases hp : (mapActionType c.act == "power"
        || mapActionType c.act == "set_power") = true
    · rw [if_pos hp] at hok ⊢
      cases hw : isPWM.getD i false with
      | true =>
        rw [if_pos hw] at hok
        simp [finishCommand] at hok
      | false =>
        rw [if_neg (by simp [hw])]
        exact ⟨rfl, rfl⟩
    · rw [if_neg hp] at hok ⊢
      by_cases hs : (mapActionType c.act == "state"
          || mapActionType c.act == "set_state") = true
      · rw [if_pos hs] at hok
        simp [finishCommand] at hok
      · rw [if_neg hs]
        exact ⟨rfl, rfl⟩

theorem processCommands_count (now : Nat) (cmds : List Cmd)
    (ds : List DeviceState) (k : Nat) (ws : List PinWrite) (ls : List LogCall) :
    (cmds.foldl (applyCmd now) ⟨ds, k, ws, ls⟩).executedCount =
      k + cmds.countP cmdOk := by
  induction cmds generalizing ds k ws ls with
  | nil => rfl
  | cons c cs ih =>
    simp only [List.foldl_cons, List.countP_cons, applyCmd]
    rw [ih, executeDeviceCommand_ok_eq]
    by_cases h : cmdOk c = true
    · rw [if_pos h]; omega
    · rw [if_neg h]; omega

theorem deviceExpired_default (now : Nat) :
    deviceExpired now (default : DeviceState) = false := rfl

theorem tickOne_not_expired (now : Nat) (d : DeviceState) :
    deviceExpired now (tickOne now d) = false := by
  unfold tickOne
  split
  · rfl
  · rename_i h
    simpa using h

theorem tickOne_tickOne (now : Nat) (d : DeviceState) :
    tickOne now (tickOne now d) = tickOne now d := by
  unfold tickOne
  by_cases he : deviceExpired now d = true
  · rw [if_pos he]
    rw [if_neg (by simp [deviceExpired])]
  · simp [he]

theorem checkStep_eq_of_expired (now : Nat) (acc : TickResult) (i : Nat)
    (he : deviceExpired now (acc.devices.getD i default) = true) :
    checkStep now acc i =
      ⟨modifyIdx acc.devices i fun _ => ⟨0, false, 0⟩,
       acc.writes ++ [if isPWM.getD i false then PinWrite.analog (devicePins.getD i 0) 0
                      else PinWrite.digital (devicePins.getD i 0) false],
       acc.logs ++ [⟨"info", "设备 " ++ deviceNames.getD i "" ++ " 定时关闭", "timer_task"⟩]⟩ := by
  unfold checkStep
  exact if_pos he

theorem checkStep_eq_of_not_expired (now : Nat) (acc : TickResult) (i : Nat)
    (he : deviceExpired now (acc.devices.getD i default) = false) :
    checkStep now acc i = acc := by
  unfold checkStep
  exact if_neg (by rw [he]; exact Bool.false_ne_true)

theorem foldl_checkStep_getD_not_mem (now : Nat) (is : List Nat)
    (j : Nat) (h : j ∉ is) : ∀ acc : TickResult,
    ((is.foldl (checkStep now) acc).devices).getD j default =
      acc.devices.getD j default := by
  induction is with
  | nil => intro acc; rfl
  | cons i rest ih =>
    intro acc
    rw [List.foldl_cons]
    rw [ih (fun hm => h (List.mem_cons_of_mem i hm))]
    have hji : j ≠ i := fun hj => h (by rw [hj]; exact List.mem_cons_self i rest)
    by_cases he : deviceExpired now (acc.devices.getD i default) = true
    · rw [checkStep_eq_of_expired now acc i he]
      exact modifyIdx_getD_ne _ _ _ _ _ hji
    · rw [checkStep_eq_of_not_expired now acc i (by
        revert he; cases deviceExpired now (acc.devices.getD i default) <;> simp)]

theorem foldl_checkStep_getD_mem (now : Nat) (is : List Nat)
    (j : Nat) (hd : is.Nodup) (h : j ∈ is) : ∀ acc : TickResult,
    ((is.foldl (checkStep now) acc).devices).getD j default =
      tickOne now (acc.devices.getD j default) := by
  induction is with
  | nil => simp at h
  | cons i rest ih =>
    intro acc
    rw [List.foldl_cons]
    rcases List.mem_cons.mp h with hj | hj
    · subst hj
      have hnotin : j ∉ rest := (List.nodup_cons.mp hd).1
      rw [foldl_checkStep_getD_not_mem now rest j hnotin]
      unfold tickOne
      by_cases he : deviceExpired now (acc.devices.getD j default) = true
      · rw [checkStep_eq_of_expired now acc j he, if_pos he]
        by_cases hlt : j < acc.devices.length
        · exact modifyIdx_getD_self _ _ _ _ hlt
        · exfalso
          rw [List.getD_eq_default _ _ (Nat.le_of_not_lt hlt)] at he
          rw [deviceExpired_default] at he
          exact Bool.false_ne_true he
      · rw [checkStep_eq_of_not_expired now acc j (by
          revert he; cases deviceExpired now (acc.devices.getD j default) <;> simp)]
        rw [if_neg he]
    · have hji : j ≠ i := fun hh => (List.nodup_cons.mp hd).1 (hh ▸ hj)
      have hstep : (checkStep now acc i).devices.getD j default =
          acc.devices.getD j default := by
        by_cases he : deviceExpired now (acc.devices.getD i default) = true
        · rw [checkStep_eq_of_expired now acc i he]
          exact modifyIdx_getD_ne _ _ _ _ _ hji
        · rw [checkStep_eq_of_not_expired now acc i (by
            revert he; cases deviceExpired now (acc.devices.getD i default) <;> simp)]
      rw [ih (List.Nodup.of_cons hd) hj (checkStep now acc i), hstep]

theorem foldl_checkStep_no_expired (now : Nat) (acc : TickResult)
    (is : List Nat)
    (h : ∀ j, deviceExpired now (acc.devices.getD j default) = false) :
    is.foldl (checkStep now) acc = acc := by
  induction is with
  | nil => rfl
  | cons i rest ih =>
    rw [List.foldl_cons, checkStep_eq_of_not_expired now acc i (h i), ih]

/-- The off-write `checkTimedTasks` performs for device `i` when it fires:
`analogWrite(pin, 0)` for PWM devices, `digitalWrite(pin, LOW)` otherwise. -/
def offWrite (i : Nat) : PinWrite :=
  if isPWM.getD i false then PinWrite.analog (devicePins.getD i 0) 0
  else PinWrite.digital (devicePins.getD i 0) false

theorem foldl_checkStep_writes (now : Nat) (is : List Nat) (hd : is.Nodup) :
    ∀ acc : TickResult,
    (is.foldl (checkStep now) acc).writes =
      acc.writes ++ (is.filter
        (fun i => deviceExpired now (acc.devices.getD i default))).map offWrite := by
  induction is with
  | nil =>
    intro acc
    simp
  | cons i rest ih =>
    intro acc
    rw [List.foldl_cons]
    have hnd := List.Nodup.of_cons hd
    have hni : i ∉ rest := (List.nodup_cons.mp hd).1
    by_cases he : deviceExpired now (acc.devices.getD i default) = true
    · rw [checkStep_eq_of_expired now acc i he, ih hnd]
      have hfilter : rest.filter (fun j => deviceExpired now
          ((modifyIdx acc.devices i fun _ =>
            (⟨0, false, 0⟩ : DeviceState)).getD j default)) =
          rest.filter (fun j => deviceExpired now (acc.devices.getD j default)) := by
        apply List.filter_congr
        intro j hj
        have hji : j ≠ i := fun hh => hni (hh ▸ hj)
        rw [modifyIdx_getD_ne _ _ _ _ _ hji]
      rw [hfilter,
        show List.filter (fun j => deviceExpired now
              (acc.devices.getD j default)) (i :: rest)
            = i :: List.filter (fun j => deviceExpired now
              (acc.devices.getD j default)) rest from
          List.filter_cons_of_pos he,
        List.map_cons, List.append_assoc]
      rfl
    · have he2 : deviceExpired now (acc.devices.getD i default) = false := by
        revert he; cases deviceExpired now (acc.devices.getD i default) <;> simp
      rw [checkStep_eq_of_not_expired now acc i he2, ih hnd]
      rw [show List.filter (fun j => deviceExpired now
              (acc.devices.getD j default)) (i :: rest)
            = List.filter (fun j => deviceExpired now
              (acc.devices.getD j default)) rest from
          List.filter_cons_of_neg (by rw [he2]; exact Bool.false_ne_true)]

/-- The pin writes of one scheduler pass: one off-write per expired device,
in registration order. -/
theorem checkTimedTasks_writes (now : Nat) (devices : List DeviceState) :
    (checkTimedTasks now devices).writes =
      ((List.range 6).filter
        (fun i => deviceExpired now (devices.getD i default))).map offWrite := by
  unfold checkTimedTasks
  rw [foldl_checkStep_writes now (List.range 6) (List.nodup_range 6)]
  rfl

/-- Pointwise effect of one scheduler pass: device `i` becomes
`tickOne now` of its old state. -/
theorem checkTimedTasks_getD (now : Nat) (devices : List DeviceState)
    (i : Nat) (hi : i < 6) :
    ((checkTimedTasks now devices).devices).getD i default =
      tickOne now (devices.getD i default) :=
  foldl_checkStep_getD_mem now (List.range 6) i
    (List.nodup_range 6) (List.mem_range.mpr hi) ⟨devices, [], []⟩

theorem checkTimedTasks_getD_ge (now : Nat) (devices : List DeviceState)
    (i : Nat) (hi : 6 ≤ i) :
    ((checkTimedTasks now devices).devices).getD i default =
      devices.getD i default :=
  foldl_checkStep_getD_not_mem now (List.range 6) i
    (fun hm => absurd (List.mem_range.mp hm) (Nat.not_lt.mpr hi)) ⟨devices, [], []⟩

/-- After a pass, no device is expired (assuming the table has length 6, as
in the program). -/
theorem checkTimedTasks_not_expired (now : Nat) (devices : List DeviceState)
    (hlen : devices.length = 6) (j : Nat) :
    deviceExpired now (((checkTimedTasks now devices).devices).getD j default)
      = false := by
  by_cases hj : j < 6
  · rw [checkTimedTasks_getD now devices j hj]
    exact tickOne_not_expired now _
  · rw [checkTimedTasks_getD_ge now devices j (Nat.le_of_not_lt hj)]
    rw [List.getD_eq_default _ _ (by omega)]
    exact deviceExpired_default now

/-- A pass over a table with no expired device does nothing at all. -/
theorem checkTimedTasks_noop (now : Nat) (ds2 : List DeviceState)
    (h : ∀ j, deviceExpired now (ds2.getD j default) = false) :
    checkTimedTasks now ds2 = ⟨ds2, [], []⟩ :=
  foldl_checkStep_no_expired now ⟨ds2, [], []⟩ (List.range 6) h

/-- A second pass right after a first one is a no-op: same devices, no pin
write, no log call. -/
theorem checkTimedTasks_idem (now : Nat) (devices : List DeviceState)
    (hlen : devices.length = 6) :
    checkTimedTasks now ((checkTimedTasks now devices).devices) =
      ⟨(checkTimedTasks now devices).devices, [], []⟩ :=
  checkTimedTasks_noop now ((checkTimedTasks now devices).devices)
    (checkTimedTasks_not_expired now devices hlen)

/-- `finishCommand` succeeds and leaves device `i` with the claimed active
flag and deadline (its `currentValue` untouched by the tail itself). -/
theorem finishCommand_getD (i : Nat) (value duration : Int) (now : Nat)
    (ds : List DeviceState) (ws : List PinWrite) (ls : List LogCall)
    (hilen : i < ds.length) :
    (finishCommand i value duration now ds ws ls).ok = true ∧
    (finishCommand i value duration now ds ws ls).devices.getD i default =
      { currentValue := (ds.getD i default).currentValue,
        isActive := decide (0 < value),
        endTime := if 0 < duration ∧ 0 < value then now + duration.toNat else 0 } := by
  unfold finishCommand
  refine ⟨rfl, ?_⟩
  rw [modifyIdx_getD_self _ _ _ _ (by rw [modifyIdx_length]; exact hilen)]
  rw [modifyIdx_getD_self _ _ _ _ hilen]

/-- Full characterization of a `power` command on a PWM device. -/
theorem executeDeviceCommand_power (deviceId : String) (i : Nat)
    (value duration : Int) (now : Nat) (devices : List DeviceState)
    (hi : findDeviceIndex deviceId = some i) (hilen : i < devices.length)
    (hpwm : isPWM.getD i false = true) :
    (executeDeviceCommand deviceId "power" value duration now devices).ok = true ∧
    (executeDeviceCommand deviceId "power" value duration now
        devices).devices.getD i default =
      { currentValue := arduinoMap value 0 100 0 255,
        isActive := decide (0 < value),
        endTime := if 0 < duration ∧ 0 < value then now + duration.toNat else 0 } ∧
    (executeDeviceCommand deviceId "power" value duration now devices).writes =
      [PinWrite.analog (devicePins.getD i 0) (arduinoMap value 0 100 0 255)] := by
  unfold executeDeviceCommand
  rw [hi]
  dsimp only
  rw [if_pos (by decide), if_pos hpwm]
  have hl : i < (modifyIdx devices i fun d =>
      { d with currentValue := arduinoMap value 0 100 0 255 }).length := by
    rw [modifyIdx_length]; exact hilen
  obtain ⟨hok, hgd⟩ := finishCommand_getD i value duration now _ _ _ hl
  refine ⟨hok, ?_, rfl⟩
  rw [hgd, modifyIdx_getD_self _ _ _ _ hilen]

/-- Full characterization of a `state` command: it succeeds on ANY known
device (the code never checks the capability on this path). -/
theorem executeDeviceCommand_state (deviceId : String) (i : Nat)
    (value duration : Int) (now : Nat) (devices : List DeviceState)
    (hi : findDeviceIndex deviceId = some i) (hilen : i < devices.length) :
    (executeDeviceCommand deviceId "state" value duration now devices).ok = true ∧
    (executeDeviceCommand deviceId "state" value duration now
        devices).devices.getD i default =
      { currentValue := if decide (0 < value) then (1 : Int) else 0,
        isActive := decide (0 < value),
        endTime := if 0 < duration ∧ 0 < value then now + duration.toNat else 0 } ∧
    (executeDeviceCommand deviceId "state" value duration now devices).writes =
      [PinWrite.digital (devicePins.getD i 0) (decide (0 < value))] := by
  unfold executeDeviceCommand
  rw [hi]
  dsimp only
  rw [if_neg (by decide), if_pos (by decide)]
  have hl : i < (modifyIdx devices i fun d =>
      { d with currentValue := if decide (0 < value) then (1 : Int) else 0 }).length := by
    rw [modifyIdx_length]; exact hilen
  obtain ⟨hok, hgd⟩ := finishCommand_getD i value duration now _ _ _ hl
  refine ⟨hok, ?_, rfl⟩
  rw [hgd, modifyIdx_getD_self _ _ _ _ hilen]

/-! ### Claim theorems -/

/-- C1, counterexample: the code maps a 50% power command on
`inflate_pump_1` (a PWM device) to driver value 127 — Arduino `map` uses
truncating integer division — whereas the claim's formula
`round(value*255/100)` gives `round(127.5) = 128`. -/
theorem c1_counterexample :
    ((executeDeviceCommand "inflate_pump_1" "power" 50 2000 1000
        initDevices).devices.getD 0 default).currentValue = 127 ∧
    (executeDeviceCommand "inflate_pump_1" "power" 50 2000 1000
        initDevices).writes = [PinWrite.analog 5 127] ∧
    round ((50 * 255 : ℚ) / 100) = 128 ∧ (127 : Int) ≠ 128 := by
  refine ⟨by decide, by decide, ?_, by decide⟩
  norm_num [round_eq]

/-- C1 (amended): for a power command on a PWM-capable actuator with value
in `[0,100]`, the driver value written and stored in `currentValue` equals
`value * 255 / 100` with the division truncating toward zero (equivalently,
since the operand is non-negative, `⌊value*255/100⌋`), and the mapping is
monotone in `value`; value 50 yields driver value 127 (not 128). -/
theorem c1_power_mapping (deviceId : String) (i : Nat) (v w duration : Int)
    (now : Nat) (devices : List DeviceState)
    (hi : findDeviceIndex deviceId = some i) (hlen : devices.length = 6)
    (hpwm : isPWM.getD i false = true)
    (h0 : 0 ≤ v) (h100 : v ≤ 100) (hvw : v ≤ w) :
    (executeDeviceCommand deviceId "power" v duration now devices).ok = true ∧
    ((executeDeviceCommand deviceId "power" v duration now
        devices).devices.getD i default).currentValue = (v * 255).tdiv 100 ∧
    (executeDeviceCommand deviceId "power" v duration now devices).writes =
      [PinWrite.analog (devicePins.getD i 0) ((v * 255).tdiv 100)] ∧
    (v * 255).tdiv 100 = (v * 255) / 100 ∧
    arduinoMap v 0 100 0 255 ≤ arduinoMap w 0 100 0 255 := by
  have hilen : i < devices.length := by
    rw [hlen]; exact findDeviceIndex_lt deviceId i hi
  obtain ⟨hok, hgd, hw⟩ :=
    executeDeviceCommand_power deviceId i v duration now devices hi hilen hpwm
  have hmap : arduinoMap v 0 100 0 255 = (v * 255).tdiv 100 := by
    unfold arduinoMap
    simp
  have htd : (v * 255).tdiv 100 = (v * 255) / 100 :=
    Int.tdiv_eq_ediv (mul_nonneg h0 (by norm_num)) (by norm_num)
  refine ⟨hok, ?_, ?_, htd, ?_⟩
  · rw [hgd, hmap]
  · rw [hw, hmap]
  · have hw0 : (0 : Int) ≤ w := le_trans h0 hvw
    have h1 : arduinoMap v 0 100 0 255 = (v * 255) / 100 := by rw [hmap, htd]
    have h2 : arduinoMap w 0 100 0 255 = (w * 255) / 100 := by
      have hm2 : arduinoMap w 0 100 0 255 = (w * 255).tdiv 100 := by
        unfold arduinoMap
        simp
      rw [hm2, Int.tdiv_eq_ediv (mul_nonneg hw0 (by norm_num)) (by norm_num)]
    rw [h1, h2]
    exact Int.ediv_le_ediv (by norm_num) (by nlinarith)

/-- C1 witness: the amended claim at `inflate_pump_1`, value 50 ≤ 60. -/
theorem c1_power_mapping_witness :
    (executeDeviceCommand "inflate_pump_1" "power" 50 2000 1000
        initDevices).ok = true ∧
    ((executeDeviceCommand "inflate_pump_1" "power" 50 2000 1000
        initDevices).devices.getD 0 default).currentValue =
      ((50 : Int) * 255).tdiv 100 ∧
    (executeDeviceCommand "inflate_pump_1" "power" 50 2000 1000
        initDevices).writes =
      [PinWrite.analog (devicePins.getD 0 0) (((50 : Int) * 255).tdiv 100)] ∧
    ((50 : Int) * 255).tdiv 100 = ((50 : Int) * 255) / 100 ∧
    arduinoMap 50 0 100 0 255 ≤ arduinoMap 60 0 100 0 255 :=
  c1_power_mapping "inflate_pump_1" 0 50 60 2000 1000 initDevices
    (by decide) (by decide) (by decide) (by decide) (by decide) (by decide)

/-- C2, counterexample: a `state` command with value 1 on `inflate_pump_1`,
whose capability is Proportional (PWM), SUCCEEDS — the code never requires
Binary capability on the state path — refuting "succeeds only when the
actuator's capability is Binary". -/
theorem c2_counterexample :
    isPWM.getD 0 false = true ∧
    (executeDeviceCommand "inflate_pump_1" "state" 1 0 0 initDevices).ok = true ∧
    ((executeDeviceCommand "inflate_pump_1" "state" 1 0 0
        initDevices).devices.getD 0 default).currentValue = 1 ∧
    (executeDeviceCommand "inflate_pump_1" "state" 1 0 0 initDevices).writes =
      [PinWrite.digital 5 true] := by decide

/-- C2 (amended): a `state` command succeeds on EVERY known actuator
regardless of its declared capability; `value > 0` writes logical HIGH and
sets `currentValue = 1`, `value == 0` writes LOW and sets `currentValue = 0`. -/
theorem c2_state_behavior (deviceId : String) (i : Nat) (value duration : Int)
    (now : Nat) (devices : List DeviceState)
    (hi : findDeviceIndex deviceId = some i) (hlen : devices.length = 6) :
    (executeDeviceCommand deviceId "state" value duration now devices).ok = true ∧
    (0 < value →
      ((executeDeviceCommand deviceId "state" value duration now
          devices).devices.getD i default).currentValue = 1 ∧
      (executeDeviceCommand deviceId "state" value duration now devices).writes =
        [PinWrite.digital (devicePins.getD i 0) true]) ∧
    (value = 0 →
      ((executeDeviceCommand deviceId "state" value duration now
          devices).devices.getD i default).currentValue = 0 ∧
      (executeDeviceCommand deviceId "state" value duration now devices).writes =
        [PinWrite.digital (devicePins.getD i 0) false]) := by
  have hilen : i < devices.length := by
    rw [hlen]; exact findDeviceIndex_lt deviceId i hi
  obtain ⟨hok, hgd, hw⟩ :=
    executeDeviceCommand_state deviceId i value duration now devices hi hilen
  refine ⟨hok, fun hv => ?_, fun hv => ?_⟩
  · rw [hgd, hw]
    simp [hv]
  · rw [hgd, hw]
    simp [hv]

/-- C2 witness: state on `valve_1` (Binary) with value 1, and on value 0. -/
theorem c2_state_behavior_witness :
    (executeDeviceCommand "valve_1" "state" 1 500 0 initDevices).ok = true ∧
    ((0 : Int) < 1 →
      ((executeDeviceCommand "valve_1" "state" 1 500 0
          initDevices).devices.getD 4 default).currentValue = 1 ∧
      (executeDeviceCommand "valve_1" "state" 1 500 0 initDevices).writes =
        [PinWrite.digital (devicePins.getD 4 0) true]) ∧
    ((1 : Int) = 0 →
      ((executeDeviceCommand "valve_1" "state" 1 500 0
          initDevices).devices.getD 4 default).currentValue = 0 ∧
      (executeDeviceCommand "valve_1" "state" 1 500 0 initDevices).writes =
        [PinWrite.digital (devicePins.getD 4 0) false]) :=
  c2_state_behavior "valve_1" 4 1 500 0 initDevices (by decide) (by decide)

/-- C9: the power mapping does not clamp: value 150 stores
`currentValue = 382 > 255`, value `-10` stores `-25 < 0`, and both commands
count as successfully executed. -/
theorem c9_no_clamp :
    (executeDeviceCommand "inflate_pump_1" "power" 150 0 0 initDevices).ok = true ∧
    ((executeDeviceCommand "inflate_pump_1" "power" 150 0 0
        initDevices).devices.getD 0 default).currentValue = 382 ∧
    (255 : Int) < 382 ∧
    (executeDeviceCommand "inflate_pump_1" "power" (-10) 0 0 initDevices).ok = true ∧
    ((executeDeviceCommand "inflate_pump_1" "power" (-10) 0 0
        initDevices).devices.getD 0 default).currentValue = -25 ∧
    (-25 : Int) < 0 := by decide

/-- Any successful command leaves the commanded device with
`isActive = (value > 0)` and the deadline given by the
`duration > 0 && value > 0` rule, whatever the action path was. -/
theorem executeDeviceCommand_ok_shape (deviceId action : String)
    (value duration : Int) (now : Nat) (devices : List DeviceState) (i : Nat)
    (hi : findDeviceIndex deviceId = some i) (hilen : i < devices.length)
    (hok : (executeDeviceCommand deviceId action value duration now
        devices).ok = true) :
    ∃ cv : Int,
      (executeDeviceCommand deviceId action value duration now
          devices).devices.getD i default =
        { currentValue := cv,
          isActive := decide (0 < value),
          endTime := if 0 < duration ∧ 0 < value then now + duration.toNat else 0 } := by
  unfold executeDeviceCommand at hok ⊢
  rw [hi] at hok ⊢
  dsimp only at hok ⊢
  by_cases hp : (action == "power" || action == "set_power") = true
  · rw [if_pos hp] at hok ⊢
    by_cases hpw : isPWM.getD i false = true
    case neg =>
      rw [if_neg hpw] at hok
      simp at hok
    case pos =>
      rw [if_pos hpw] at hok ⊢
      have hl : i < (modifyIdx devices i fun d =>
          { d with currentValue := arduinoMap value 0 100 0 255 }).length := by
        rw [modifyIdx_length]; exact hilen
      obtain ⟨-, hgd⟩ := finishCommand_getD i value duration now _ _ _ hl
      exact ⟨_, hgd⟩
  · rw [if_neg hp] at hok ⊢
    by_cases hs : (action == "state" || action == "set_state") = true
    · rw [if_pos hs] at hok ⊢
      have hl : i < (modifyIdx devices i fun d =>
          { d with currentValue := if decide (0 < value) then (1 : Int) else 0 }).length := by
        rw [modifyIdx_length]; exact hilen
      obtain ⟨-, hgd⟩ := finishCommand_getD i value duration now _ _ _ hl
      exact ⟨_, hgd⟩
    · rw [if_neg hs] at hok
      simp at hok

/-- C3: after every successful command the commanded actuator has
`isActive = (value > 0)`, its deadline equals `now + duration` exactly when
`duration > 0` and `value > 0` and is cleared (0) otherwise; hence a
deadline is present iff the command had positive duration AND positive
value. -/
theorem c3_deadline_iff (deviceId action : String) (value duration : Int)
    (now : Nat) (devices : List DeviceState) (i : Nat)
    (hi : findDeviceIndex deviceId = some i) (hlen : devices.length = 6)
    (hok : (executeDeviceCommand deviceId action value duration now
        devices).ok = true) :
    ((executeDeviceCommand deviceId action value duration now
        devices).devices.getD i default).isActive = decide (0 < value) ∧
    ((executeDeviceCommand deviceId action value duration now
        devices).devices.getD i default).endTime =
      (if 0 < duration ∧ 0 < value then now + duration.toNat else 0) ∧
    (0 < ((executeDeviceCommand deviceId action value duration now
        devices).devices.getD i default).endTime ↔
      0 < duration ∧ 0 < value) := by
  have hilen : i < devices.length := by
    rw [hlen]; exact findDeviceIndex_lt deviceId i hi
  obtain ⟨cv, hshape⟩ := executeDeviceCommand_ok_shape deviceId action value
    duration now devices i hi hilen hok
  rw [hshape]
  dsimp only
  refine ⟨rfl, rfl, ?_⟩
  by_cases hc : 0 < duration ∧ 0 < value
  · rw [if_pos hc]
    constructor
    · intro _; exact hc
    · intro _
      obtain ⟨hd, hv⟩ := hc
      omega
  · rw [if_neg hc]
    simp [hc]

/-- C3 witness at a concrete successful command (`valve_2`, state,
value 3, duration 700 at time 100). -/
theorem c3_deadline_iff_witness :
    ((executeDeviceCommand "valve_2" "state" 3 700 100
        initDevices).devices.getD 5 default).isActive = decide ((0 : Int) < 3) ∧
    ((executeDeviceCommand "valve_2" "state" 3 700 100
        initDevices).devices.getD 5 default).endTime =
      (if (0 : Int) < 700 ∧ (0 : Int) < 3 then 100 + (700 : Int).toNat else 0) ∧
    (0 < ((executeDeviceCommand "valve_2" "state" 3 700 100
        initDevices).devices.getD 5 default).endTime ↔
      (0 : Int) < 700 ∧ (0 : Int) < 3) :=
  c3_deadline_iff "valve_2" "state" 3 700 100 initDevices 5
    (by decide) (by decide) (by decide)

/-- C4: a scheduler pass reverts exactly the devices whose deadline is
present (`endTime > 0`) and due (`now >= endTime`) — each such device ends
at value 0, inactive, deadline cleared, every other device is untouched —
and a second pass immediately after is a complete no-op (same devices, no
pin write, no log call). -/
theorem c4_tick_exact (now : Nat) (devices : List DeviceState)
    (hlen : devices.length = 6) (i : Nat) (hi : i < 6) :
    (((checkTimedTasks now devices).devices).getD i default =
      if 0 < (devices.getD i default).endTime ∧
          (devices.getD i default).endTime ≤ now
      then ⟨0, false, 0⟩ else devices.getD i default) ∧
    (checkTimedTasks now devices).writes =
      ((List.range 6).filter
        (fun j => deviceExpired now (devices.getD j default))).map offWrite ∧
    checkTimedTasks now ((checkTimedTasks now devices).devices) =
      ⟨(checkTimedTasks now devices).devices, [], []⟩ := by
  refine ⟨?_, checkTimedTasks_writes now devices,
    checkTimedTasks_idem now devices hlen⟩
  rw [checkTimedTasks_getD now devices i hi]
  simp only [tickOne, deviceExpired, Bool.and_eq_true, decide_eq_true_eq]

set_option maxHeartbeats 1000000 in
/-- C4 witness: device 2 armed with deadline 5 fires at time 10; the second
pass changes nothing. -/
theorem c4_tick_exact_witness :
    (((checkTimedTasks 10 (modifyIdx initDevices 2 fun d =>
        { d with endTime := 5 })).devices).getD 2 default =
      if 0 < ((modifyIdx initDevices 2 fun d =>
            { d with endTime := 5 }).getD 2 default).endTime ∧
          ((modifyIdx initDevices 2 fun d =>
            { d with endTime := 5 }).getD 2 default).endTime ≤ 10
      then ⟨0, false, 0⟩
      else (modifyIdx initDevices 2 fun d => { d with endTime := 5 }).getD 2 default) ∧
    (checkTimedTasks 10 (modifyIdx initDevices 2 fun d =>
        { d with endTime := 5 })).writes =
      ((List.range 6).filter
        (fun j => deviceExpired 10 ((modifyIdx initDevices 2 fun d =>
          { d with endTime := 5 }).getD j default))).map offWrite ∧
    checkTimedTasks 10 ((checkTimedTasks 10 (modifyIdx initDevices 2 fun d =>
        { d with endTime := 5 })).devices) =
      ⟨(checkTimedTasks 10 (modifyIdx initDevices 2 fun d =>
        { d with endTime := 5 })).devices, [], []⟩ :=
  c4_tick_exact 10 (modifyIdx initDevices 2 fun d => { d with endTime := 5 })
    (by decide) 2 (by decide)

/-- C6: once the JSON batch parses, commands are applied in array order (the
result is the left fold of the per-command step), a failing command leaves
the device table and outputs untouched (never aborting the batch), and the
response is always HTTP 200 with `executed` equal to the number of
successfully applied commands. -/
theorem c6_batch_success (request : String)
    (parse : String → Except String Batch) (now : Nat)
    (devices : List DeviceState) (j : Nat) (b : Batch)
    (hj : firstBraceIdx request = some j)
    (hp : parse ((request.toList.drop j).asString) = Except.ok b) :
    (handleBatchCommands request parse now devices).response.status = 200 ∧
    (handleBatchCommands request parse now devices).response.body =
      okBody (b.cmds.countP cmdOk) ∧
    (handleBatchCommands request parse now devices).devices =
      (processCommands now devices b.cmds).devices ∧
    (∀ (ds : List DeviceState) (c : Cmd), cmdOk c = false →
      (executeDeviceCommand (mapDeviceId c.dev) (mapActionType c.act)
          c.val c.dur now ds).devices = ds ∧
      (executeDeviceCommand (mapDeviceId c.dev) (mapActionType c.act)
          c.val c.dur now ds).writes = []) := by
  have hcount : (processCommands now devices b.cmds).executedCount =
      b.cmds.countP cmdOk := by
    unfold processCommands
    rw [processCommands_count now b.cmds devices 0 [] [], Nat.zero_add]
  unfold handleBatchCommands
  rw [hj]
  dsimp only
  rw [hp]
  dsimp only
  exact ⟨rfl, by rw [hcount], rfl,
    fun ds c h => executeDeviceCommand_failed_frame now ds c h⟩

/-- C6 witness: a two-command batch — an unknown device followed by a valid
50% power command on `pump1` — executes exactly one command and answers
200. -/
theorem c6_batch_success_witness :
    (handleBatchCommands "\x7b"
        (fun _ => Except.ok ⟨"b1", 1000,
          [⟨"nope", "setPwr", 50, 0⟩, ⟨"pump1", "setPwr", 50, 2000⟩]⟩)
        0 initDevices).response.status = 200 ∧
    (handleBatchCommands "\x7b"
        (fun _ => Except.ok ⟨"b1", 1000,
          [⟨"nope", "setPwr", 50, 0⟩, ⟨"pump1", "setPwr", 50, 2000⟩]⟩)
        0 initDevices).response.body =
      okBody (List.countP cmdOk
        [⟨"nope", "setPwr", 50, 0⟩, ⟨"pump1", "setPwr", 50, 2000⟩]) ∧
    (handleBatchCommands "\x7b"
        (fun _ => Except.ok ⟨"b1", 1000,
          [⟨"nope", "setPwr", 50, 0⟩, ⟨"pump1", "setPwr", 50, 2000⟩]⟩)
        0 initDevices).devices =
      (processCommands 0 initDevices
        [⟨"nope", "setPwr", 50, 0⟩, ⟨"pump1", "setPwr", 50, 2000⟩]).devices ∧
    (∀ (ds : List DeviceState) (c : Cmd), cmdOk c = false →
      (executeDeviceCommand (mapDeviceId c.dev) (mapActionType c.act)
          c.val c.dur 0 ds).devices = ds ∧
      (executeDeviceCommand (mapDeviceId c.dev) (mapActionType c.act)
          c.val c.dur 0 ds).writes = []) :=
  c6_batch_success "\x7b"
    (fun _ => Except.ok ⟨"b1", 1000,
      [⟨"nope", "setPwr", 50, 0⟩, ⟨"pump1", "setPwr", 50, 2000⟩]⟩)
    0 initDevices 0
    ⟨"b1", 1000, [⟨"nope", "setPwr", 50, 0⟩, ⟨"pump1", "setPwr", 50, 2000⟩]⟩
    (by decide) rfl

/-- C7, counterexample: a `POST /api/commands` request containing no `\x7b`
gets HTTP 400 with an error body, but the code emits NO error log event on
this path (only the JSON-deserialization failure path logs), refuting the
claim's "an error log event is emitted". -/
theorem c7_counterexample :
    (handleBatchCommands "POST /api/commands"
        (fun _ => Except.error "IncompleteInput") 0 initDevices).response.status
      = 400 ∧
    (handleBatchCommands "POST /api/commands"
        (fun _ => Except.error "IncompleteInput") 0 initDevices).response.body
      = errorBody "No JSON found" ∧
    (handleBatchCommands "POST /api/commands"
        (fun _ => Except.error "IncompleteInput") 0 initDevices).logs = [] := by
  decide

/-- C7 (amended): whenever the extracted body has no opening brace or fails
to parse, the response is HTTP 400 with a non-empty error field, no command
is applied (device table unchanged, no pin write); an `error` log event is
emitted in the JSON-parse-failure case — but NOT in the missing-brace
case, where no log call is made at all. -/
theorem c7_parse_failure (request : String)
    (parse : String → Except String Batch) (now : Nat)
    (devices : List DeviceState)
    (h : firstBraceIdx request = none ∨
      ∃ j e, firstBraceIdx request = some j ∧
        parse ((request.toList.drop j).asString) = Except.error e) :
    (handleBatchCommands request parse now devices).devices = devices ∧
    (handleBatchCommands request parse now devices).writes = [] ∧
    (handleBatchCommands request parse now devices).response.status = 400 ∧
    (∃ msg, msg ≠ "" ∧
      (handleBatchCommands request parse now devices).response.body =
        errorBody msg) ∧
    (∀ j e, firstBraceIdx request = some j →
      parse ((request.toList.drop j).asString) = Except.error e →
      (handleBatchCommands request parse now devices).logs =
        [⟨"error", "JSON解析失败: " ++ e, "json_parse"⟩]) := by
  rcases h with hnone | ⟨j, e, hj, hp⟩
  · unfold handleBatchCommands
    rw [hnone]
    refine ⟨rfl, rfl, rfl, ⟨"No JSON found", by decide, rfl⟩, ?_⟩
    intro j e hj _
    cases hj
  · unfold handleBatchCommands
    rw [hj]
    dsimp only
    rw [hp]
    dsimp only
    have hne : ("JSON Parse Error: " ++ e) ≠ "" := by
      intro hcontra
      have h1 := congrArg String.length hcontra
      rw [String.length_append] at h1
      have h2 : ("JSON Parse Error: " : String).length = 18 := rfl
      have h3 : ("" : String).length = 0 := rfl
      omega
    refine ⟨rfl, rfl, rfl, ⟨"JSON Parse Error: " ++ e, hne, rfl⟩, ?_⟩
    intro j2 e2 hj2 hp2
    cases hj2
    rw [hp] at hp2
    cases hp2
    rfl

/-- C7 witness for the amended claim, at the JSON-parse-failure branch. -/
theorem c7_parse_failure_witness :
    (handleBatchCommands "\x7b\"id\":\"x\""
        (fun _ => Except.error "IncompleteInput") 7 initDevices).devices =
      initDevices ∧
    (handleBatchCommands "\x7b\"id\":\"x\""
        (fun _ => Except.error "IncompleteInput") 7 initDevices).writes = [] ∧
    (handleBatchCommands "\x7b\"id\":\"x\""
        (fun _ => Except.error "IncompleteInput") 7 initDevices).response.status
      = 400 ∧
    (∃ msg, msg ≠ "" ∧
      (handleBatchCommands "\x7b\"id\":\"x\""
          (fun _ => Except.error "IncompleteInput") 7
          initDevices).response.body = errorBody msg) ∧
    (∀ j e, firstBraceIdx "\x7b\"id\":\"x\"" = some j →
      (fun (_ : String) => Except.error (ε := String) (α := Batch)
          "IncompleteInput") (((("\x7b\"id\":\"x\"" : String).toList.drop j).asString)) =
        Except.error e →
      (handleBatchCommands "\x7b\"id\":\"x\""
          (fun _ => Except.error "IncompleteInput") 7 initDevices).logs =
        [⟨"error", "JSON解析失败: " ++ e, "json_parse"⟩]) :=
  c7_parse_failure "\x7b\"id\":\"x\"" (fun _ => Except.error "IncompleteInput")
    7 initDevices (Or.inr ⟨0, "IncompleteInput", by decide, rfl⟩)

/-! ### Logger lemmas and claims -/

/-- `sendLogImmediately` never touches the rate limiter timestamp. -/
theorem sendLogImmediately_lastSendTime (now : Nat) (ok : Bool)
    (lvl m c : String) (st : LoggerState) :
    (sendLogImmediately now ok lvl m c st).lastSendTime = st.lastSendTime := by
  unfold sendLogImmediately
  cases ok
  · rfl
  · rfl

/-- Urgent levels always attempt a transmission. -/
theorem loggerLog_urgent_snd (now : Nat) (ok : Bool) (lvl m c : String)
    (st : LoggerState) (h : (lvl == "error" || lvl == "warn") = true) :
    (loggerLog now ok lvl m c st).2 = true := by
  unfold loggerLog
  rw [if_pos h]

/-- A non-urgent call attempts a transmission exactly when the minimum
interval since `lastSendTime` has elapsed. -/
theorem loggerLog_nonurgent_snd (now : Nat) (ok : Bool) (lvl m c : String)
    (st : LoggerState) (h : (lvl == "error" || lvl == "warn") = false) :
    (loggerLog now ok lvl m c st).2 =
      decide (MIN_SEND_INTERVAL ≤ now - st.lastSendTime) := by
  unfold loggerLog
  rw [if_neg (by rw [h]; exact Bool.false_ne_true)]
  by_cases hint : MIN_SEND_INTERVAL ≤ now - st.lastSendTime
  · rw [if_pos hint]
    simp [hint]
  · rw [if_neg hint]
    simp [hint]

/-- A non-urgent call that attempts sets `lastSendTime := now`. -/
theorem loggerLog_nonurgent_fst_sent (now : Nat) (ok : Bool) (lvl m c : String)
    (st : LoggerState) (h : (lvl == "error" || lvl == "warn") = false)
    (hint : MIN_SEND_INTERVAL ≤ now - st.lastSendTime) :
    ((loggerLog now ok lvl m c st).1).lastSendTime = now := by
  unfold loggerLog
  rw [if_neg (by rw [h]; exact Bool.false_ne_true), if_pos hint]

/-- One environment event for a `log` call: clock reading, connectivity of
the outbound socket, and the call's arguments. -/
structure LogCallEv where
  now : Nat
  connectOk : Bool
  level : String
  message : String
  category : String

/-- Trace semantics of a sequence of `log` calls.  Besides the logger state
it returns, as a ghost observation, the clock time of the last non-urgent
transmission attempt that actually connected (the "last successful
transmission of a non-urgent entry" the claim speaks about) and the list of
per-call attempt decisions. -/
def runTrace (st : LoggerState) (lastSuccess : Option Nat) :
    List LogCallEv → LoggerState × Option Nat × List Bool
  | [] => (st, lastSuccess, [])
  | e :: es =>
    let r := loggerLog e.now e.connectOk e.level e.message e.category st
    let ls := if r.2 && !(e.level == "error" || e.level == "warn") && e.connectOk
              then some e.now else lastSuccess
    let rest := runTrace r.1 ls es
    (rest.1, rest.2.1, r.2 :: rest.2.2)

/-- C5, counterexample: trace — `info` at t=1000 transmitted successfully;
`info` at t=2500 attempted but the connection FAILED (so the last successful
non-urgent transmission stays at t=1000); `info` at t=3000 is DROPPED by the
code (3000 - 2500 < 1000) even though 3000 - 1000 = 2000 ≥ 1000 ms have
elapsed since the last successful non-urgent transmission.  The rate limiter
timestamp tracks attempts, not successes, refuting the claim. -/
theorem c5_counterexample :
    (runTrace initLogger none
      [⟨1000, true, "info", "a", "s"⟩, ⟨2500, false, "info", "b", "s"⟩,
       ⟨3000, true, "info", "d", "s"⟩]).2.2 = [true, true, false] ∧
    (runTrace initLogger none
      [⟨1000, true, "info", "a", "s"⟩,
       ⟨2500, false, "info", "b", "s"⟩]).2.1 = some 1000 ∧
    MIN_SEND_INTERVAL ≤ 3000 - 1000 := by decide

/-- C5 (amended): urgent levels (`error`/`warn`) always attempt a
transmission; `info`/`debug` attempt exactly when at least
`MIN_SEND_INTERVAL` (1000 ms) elapsed since `lastSendTime` — the time of the
last non-urgent transmission ATTEMPT (successful or not; 0 at boot) — and
are otherwise dropped; hence two info calls inside the window yield exactly
one attempt while an error call in the same window still transmits. -/
theorem c5_rate_limit :
    (∀ (st : LoggerState) (now : Nat) (ok : Bool) (m c lvl : String),
      lvl = "info" ∨ lvl = "debug" →
      ((loggerLog now ok lvl m c st).2 = true ↔
        MIN_SEND_INTERVAL ≤ now - st.lastSendTime)) ∧
    (∀ (st : LoggerState) (now : Nat) (ok : Bool) (m c lvl : String),
      lvl = "error" ∨ lvl = "warn" →
      (loggerLog now ok lvl m c st).2 = true) ∧
    (∀ (st : LoggerState) (now now2 : Nat) (ok ok2 : Bool) (m c m2 c2 : String),
      MIN_SEND_INTERVAL ≤ now - st.lastSendTime →
      now2 - now < MIN_SEND_INTERVAL →
      (loggerLog now ok "info" m c st).2 = true ∧
      (loggerLog now2 ok2 "info" m2 c2 (loggerLog now ok "info" m c st).1).2 =
        false ∧
      (loggerLog now2 ok2 "error" m2 c2 (loggerLog now ok "info" m c st).1).2 =
        true) := by
  refine ⟨?_, ?_, ?_⟩
  · intro st now ok m c lvl hlvl
    have h : (lvl == "error" || lvl == "warn") = false := by
      rcases hlvl with h | h <;> subst h <;> decide
    rw [loggerLog_nonurgent_snd now ok lvl m c st h]
    simp
  · intro st now ok m c lvl hlvl
    have h : (lvl == "error" || lvl == "warn") = true := by
      rcases hlvl with h | h <;> subst h <;> decide
    exact loggerLog_urgent_snd now ok lvl m c st h
  · intro st now now2 ok ok2 m c m2 c2 hgap hwin
    have hinfo : (("info" : String) == "error" || ("info" : String) == "warn")
        = false := by decide
    have hlast : ((loggerLog now ok "info" m c st).1).lastSendTime = now :=
      loggerLog_nonurgent_fst_sent now ok "info" m c st hinfo hgap
    refine ⟨?_, ?_, ?_⟩
    · rw [loggerLog_nonurgent_snd now ok "info" m c st hinfo]
      simp [hgap]
    · rw [loggerLog_nonurgent_snd now2 ok2 "info" m2 c2 _ hinfo, hlast]
      simp only [decide_eq_false_iff_not]
      omega
    · exact loggerLog_urgent_snd now2 ok2 "error" m2 c2 _ (by decide)

/-- C5 witness for the amended claim: a fresh logger attempts an `info`
transmission at t=1000 and drops a second one at t=1500; `error` still
goes through. -/
theorem c5_rate_limit_witness :
    (loggerLog 1000 true "info" "m" "s" initLogger).2 = true ∧
    (loggerLog 1500 true "info" "n" "s"
      (loggerLog 1000 true "info" "m" "s" initLogger).1).2 = false ∧
    (loggerLog 1500 true "error" "n" "s"
      (loggerLog 1000 true "info" "m" "s" initLogger).1).2 = true :=
  c5_rate_limit.2.2 initLogger 1000 1500 true true "m" "s" "n" "s"
    (by decide) (by decide)

/-- The serialized payload is never the empty string. -/
theorem buildJsonLog_length_pos (now : Nat) (lvl m c : String) :
    0 < (buildJsonLog now lvl m c).length := by
  unfold buildJsonLog
  simp only [String.length_append]
  have h : (0 : Nat) < ("\x7b\"timestamp\":" : String).length := by decide
  omega

/-- C8: a failed outbound connection stores the serialized payload as THE
single pending entry (overwriting any previous one); stored payloads are
never empty; `retryLastLog` attempts exactly one transmission when an entry
is pending, clears it on success, leaves the state completely unchanged on
failure, and does nothing when no entry is pending. -/
theorem c8_pending_retry :
    (∀ (st : LoggerState) (now : Nat) (lvl m c : String),
      sendLogImmediately now false lvl m c st =
        { st with lastLog := buildJsonLog now lvl m c, hasPendingLog := true }) ∧
    (∀ (now : Nat) (lvl m c : String), buildJsonLog now lvl m c ≠ "") ∧
    (∀ st : LoggerState, st.hasPendingLog = true → 0 < st.lastLog.length →
      (retryLastLog true st).1 =
        { st with hasPendingLog := false, lastLog := "" } ∧
      (retryLastLog true st).2 = true ∧
      (retryLastLog false st).1 = st ∧
      (retryLastLog false st).2 = true) ∧
    (∀ (st : LoggerState) (ok : Bool), st.hasPendingLog = false →
      retryLastLog ok st = (st, false)) := by
  refine ⟨?_, ?_, ?_, ?_⟩
  · intro st now lvl m c
    unfold sendLogImmediately
    rfl
  · intro now lvl m c hcontra
    have h1 := congrArg String.length hcontra
    have h2 := buildJsonLog_length_pos now lvl m c
    have h3 : ("" : String).length = 0 := rfl
    omega
  · intro st h1 h2
    refine ⟨?_, ?_, ?_, ?_⟩ <;>
      · unfold retryLastLog
        rw [if_pos ⟨h1, h2⟩]
        rfl
  · intro st ok h1
    unfold retryLastLog
    rw [if_neg (fun hc => by rw [h1] at hc; exact Bool.false_ne_true hc.1)]

/-- C8 witness: an `error` log at t=42 with the collector unreachable is
buffered; a retry with connectivity back clears it, a retry without leaves
it pending. -/
theorem c8_pending_retry_witness :
    (sendLogImmediately 42 false "error" "boom" "s" initLogger =
      { initLogger with
        lastLog := buildJsonLog 42 "error" "boom" "s"
        hasPendingLog := true }) ∧
    buildJsonLog 42 "error" "boom" "s" ≠ "" ∧
    ((retryLastLog true (sendLogImmediately 42 false "error" "boom" "s"
        initLogger)).1 =
      { sendLogImmediately 42 false "error" "boom" "s" initLogger with
        hasPendingLog := false, lastLog := "" } ∧
     (retryLastLog true (sendLogImmediately 42 false "error" "boom" "s"
        initLogger)).2 = true ∧
     (retryLastLog false (sendLogImmediately 42 false "error" "boom" "s"
        initLogger)).1 =
       sendLogImmediately 42 false "error" "boom" "s" initLogger ∧
     (retryLastLog false (sendLogImmediately 42 false "error" "boom" "s"
        initLogger)).2 = true) ∧
    retryLastLog true initLogger = (initLogger, false) :=
  ⟨c8_pending_retry.1 initLogger 42 "error" "boom" "s",
   c8_pending_retry.2.1 42 "error" "boom" "s",
   c8_pending_retry.2.2.1 (sendLogImmediately 42 false "error" "boom" "s"
      initLogger) (by decide) (by decide),
   c8_pending_retry.2.2.2 initLogger true (by decide)⟩

/-- C10: an `error`/`warn` log call never updates the rate limiter timestamp
`lastSendTime`, so it never changes whether a subsequent `info`/`debug` call
is attempted or dropped. -/
theorem c10_urgent_frame (st : LoggerState) (now now2 : Nat) (ok ok2 : Bool)
    (m c m2 c2 lvl lvl2 : String)
    (hurgent : lvl = "error" ∨ lvl = "warn")
    (hnon : lvl2 = "info" ∨ lvl2 = "debug") :
    ((loggerLog now ok lvl m c st).1).lastSendTime = st.lastSendTime ∧
    (loggerLog now2 ok2 lvl2 m2 c2 (loggerLog now ok lvl m c st).1).2 =
      (loggerLog now2 ok2 lvl2 m2 c2 st).2 := by
  have hcond : (lvl == "error" || lvl == "warn") = true := by
    rcases hurgent with h | h <;> subst h <;> decide
  have hcond2 : (lvl2 == "error" || lvl2 == "warn") = false := by
    rcases hnon with h | h <;> subst h <;> decide
  have hfirst : ((loggerLog now ok lvl m c st).1).lastSendTime =
      st.lastSendTime := by
    unfold loggerLog
    rw [if_pos hcond]
    exact sendLogImmediately_lastSendTime now ok lvl m c st
  refine ⟨hfirst, ?_⟩
  rw [loggerLog_nonurgent_snd now2 ok2 lvl2 m2 c2 _ hcond2,
    loggerLog_nonurgent_snd now2 ok2 lvl2 m2 c2 st hcond2, hfirst]

/-- C10 witness: an `error` log right after boot leaves `lastSendTime` at 0
and does not change the fate of an `info` call at t=1200. -/
theorem c10_urgent_frame_witness :
    ((loggerLog 500 true "error" "m" "s" initLogger).1).lastSendTime =
      initLogger.lastSendTime ∧
    (loggerLog 1200 true "info" "n" "s"
      (loggerLog 500 true "error" "m" "s" initLogger).1).2 =
      (loggerLog 1200 true "info" "n" "s" initLogger).2 :=
  c10_urgent_frame initLogger 500 1200 true true "m" "s" "n" "s" "error" "info"
    (Or.inl rfl) (Or.inl rfl)

end Manta
